import Mathlib

/-!
Verification of the arithmetic core of the air-quality dashboard
(`src/app.py`): the unit converter `convert_tempo_to_ugm3` and the AQI
classifier `calculate_aqi_no2`.  Both Python functions are pure arithmetic
on numbers; we embed them over `ℚ` (exact rational arithmetic, the ideal
semantics of the source's real-number formulas).
-/

namespace AirQuality

/-- Embedding of `convert_tempo_to_ugm3` from `src/app.py` lines 77-89:
`no2_ugm3 = (tempo_no2_molm2 / BOUNDARY_LAYER_HEIGHT) * NO2_MOLECULAR_WEIGHT * 1e6`
with `BOUNDARY_LAYER_HEIGHT = 1000` and `NO2_MOLECULAR_WEIGHT = 46`. -/
def convert_tempo_to_ugm3 (tempo_no2_molm2 : ℚ) : ℚ :=
  let BOUNDARY_LAYER_HEIGHT : ℚ := 1000
  let NO2_MOLECULAR_WEIGHT : ℚ := 46
  (tempo_no2_molm2 / BOUNDARY_LAYER_HEIGHT) * NO2_MOLECULAR_WEIGHT * 1000000

/-- Embedding of `calculate_aqi_no2` from `src/app.py` lines 91-107: an
if/elif chain of `<=` comparisons against ascending thresholds, returning
a `(category, color, level)` triple. -/
def calculate_aqi_no2 (no2_ugm3 : ℚ) : String × String × Nat :=
  if no2_ugm3 ≤ 53 then ("Good", "#00E400", 0)
  else if no2_ugm3 ≤ 100 then ("Moderate", "#FFFF00", 1)
  else if no2_ugm3 ≤ 360 then ("Unhealthy for Sensitive Groups", "#FF7E00", 2)
  else if no2_ugm3 ≤ 649 then ("Unhealthy", "#FF0000", 3)
  else if no2_ugm3 ≤ 1249 then ("Very Unhealthy", "#8F3F97", 4)
  else ("Hazardous", "#7E0023", 5)

/-- The `no2_molm2` column of the hardcoded `tempo_data_original` table,
`src/app.py` lines 188-195. -/
def tempo_data_no2_molm2 : List ℚ :=
  [0.00007, 0.00005, 0.00008, 0.00004, 0.00003, 0.00009, 0.00006, 0.00002]

/-- The fixed table of the six `(category, color, level)` triples returned
by `calculate_aqi_no2`, indexed by severity level. -/
def aqiTriple : Fin 6 → String × String × Nat
  | 0 => ("Good", "#00E400", 0)
  | 1 => ("Moderate", "#FFFF00", 1)
  | 2 => ("Unhealthy for Sensitive Groups", "#FF7E00", 2)
  | 3 => ("Unhealthy", "#FF0000", 3)
  | 4 => ("Very Unhealthy", "#8F3F97", 4)
  | 5 => ("Hazardous", "#7E0023", 5)

/-- The concentration interval that the `i`-th branch of
`calculate_aqi_no2` catches (first match wins, so branch `i` fires exactly
when the previous thresholds are exceeded and the `i`-th is not). -/
def inCategory (i : ℕ) (c : ℚ) : Prop :=
  if i = 0 then c ≤ 53
  else if i = 1 then 53 < c ∧ c ≤ 100
  else if i = 2 then 100 < c ∧ c ≤ 360
  else if i = 3 then 360 < c ∧ c ≤ 649
  else if i = 4 then 649 < c ∧ c ≤ 1249
  else if i = 5 then 1249 < c
  else False

/-- Exhaustive case analysis of `calculate_aqi_no2`: exactly which triple
is returned on each of the six intervals. -/
lemma calculate_aqi_no2_cases (c : ℚ) :
    (c ≤ 53 ∧ calculate_aqi_no2 c = ("Good", "#00E400", 0)) ∨
    (53 < c ∧ c ≤ 100 ∧ calculate_aqi_no2 c = ("Moderate", "#FFFF00", 1)) ∨
    (100 < c ∧ c ≤ 360 ∧
      calculate_aqi_no2 c = ("Unhealthy for Sensitive Groups", "#FF7E00", 2)) ∨
    (360 < c ∧ c ≤ 649 ∧ calculate_aqi_no2 c = ("Unhealthy", "#FF0000", 3)) ∨
    (649 < c ∧ c ≤ 1249 ∧
      calculate_aqi_no2 c = ("Very Unhealthy", "#8F3F97", 4)) ∨
    (1249 < c ∧ calculate_aqi_no2 c = ("Hazardous", "#7E0023", 5)) := by
  unfold calculate_aqi_no2
  split_ifs with h1 h2 h3 h4 h5
  · exact Or.inl ⟨h1, rfl⟩
  · exact Or.inr (Or.inl ⟨not_le.mp h1, h2, rfl⟩)
  · exact Or.inr (Or.inr (Or.inl ⟨not_le.mp h2, h3, rfl⟩))
  · exact Or.inr (Or.inr (Or.inr (Or.inl ⟨not_le.mp h3, h4, rfl⟩)))
  · exact Or.inr (Or.inr (Or.inr (Or.inr (Or.inl ⟨not_le.mp h4, h5, rfl⟩))))
  · exact Or.inr (Or.inr (Or.inr (Or.inr (Or.inr ⟨not_le.mp h5, rfl⟩))))

/-- The conversion is the single-scale-factor linear map `m * 46000`. -/
lemma convert_eq (m : ℚ) : convert_tempo_to_ugm3 m = m * 46000 := by
  unfold convert_tempo_to_ugm3
  ring

/-- The branch that fires in `calculate_aqi_no2` is the one whose interval
contains the input. -/
lemma inCategory_level (c : ℚ) : inCategory (calculate_aqi_no2 c).2.2 c := by
  rcases calculate_aqi_no2_cases c with ⟨h1, e⟩ | ⟨h1, h2, e⟩ | ⟨h1, h2, e⟩ |
    ⟨h1, h2, e⟩ | ⟨h1, h2, e⟩ | ⟨h1, e⟩ <;>
  rw [e] <;> simp only [inCategory] <;> norm_num <;>
  first
    | exact h1
    | exact ⟨h1, h2⟩

/-- Only the branch that fires contains the input: the interval index is
determined by the concentration. -/
lemma inCategory_eq_level {c : ℚ} {i : ℕ} (hi : inCategory i c) :
    i = (calculate_aqi_no2 c).2.2 := by
  unfold inCategory at hi
  rcases calculate_aqi_no2_cases c with ⟨h1, e⟩ | ⟨h1, h2, e⟩ | ⟨h1, h2, e⟩ |
    ⟨h1, h2, e⟩ | ⟨h1, h2, e⟩ | ⟨h1, e⟩ <;>
  rw [e] <;> dsimp only <;>
  split_ifs at hi with g0 g1 g2 g3 g4 g5 <;>
  first
    | omega
    | exact hi.elim
    | (exfalso; linarith [hi.1, hi.2])
    | (exfalso; linarith [hi])

/-- The level always lies in `0..5` and the returned triple is exactly the
table entry at that level. -/
lemma calculate_aqi_no2_mem_table (c : ℚ) :
    ∃ i : Fin 6, calculate_aqi_no2 c = aqiTriple i ∧
      (calculate_aqi_no2 c).2.2 = (i : ℕ) := by
  rcases calculate_aqi_no2_cases c with ⟨h1, e⟩ | ⟨h1, h2, e⟩ | ⟨h1, h2, e⟩ |
    ⟨h1, h2, e⟩ | ⟨h1, h2, e⟩ | ⟨h1, e⟩ <;>
  rw [e] <;>
  first
    | exact ⟨0, rfl, rfl⟩
    | exact ⟨1, rfl, rfl⟩
    | exact ⟨2, rfl, rfl⟩
    | exact ⟨3, rfl, rfl⟩
    | exact ⟨4, rfl, rfl⟩
    | exact ⟨5, rfl, rfl⟩

/-- The classifier's level component is monotone in the concentration. -/
lemma aqi_level_mono {c1 c2 : ℚ} (h : c1 ≤ c2) :
    (calculate_aqi_no2 c1).2.2 ≤ (calculate_aqi_no2 c2).2.2 := by
  rcases calculate_aqi_no2_cases c1 with ⟨a1, e1⟩ | ⟨a1, a2, e1⟩ | ⟨a1, a2, e1⟩ |
    ⟨a1, a2, e1⟩ | ⟨a1, a2, e1⟩ | ⟨a1, e1⟩ <;>
  rcases calculate_aqi_no2_cases c2 with ⟨b1, e2⟩ | ⟨b1, b2, e2⟩ | ⟨b1, b2, e2⟩ |
    ⟨b1, b2, e2⟩ | ⟨b1, b2, e2⟩ | ⟨b1, e2⟩ <;>
  rw [e1, e2] <;> dsimp only <;>
  first
    | omega
    | (exfalso; linarith)

/-- C1: for every non-negative `m` (every rational is finite), the value
`(m / 1000) * 46 * 1e6` computed by `convert_tempo_to_ugm3` equals the
single-scale-factor linear map `m * 46000`. -/
theorem convert_is_linear_46000 (m : ℚ) (h : 0 ≤ m) :
    convert_tempo_to_ugm3 m = m * 46000 :=
  convert_eq m

/-- Witness for C1 at the concrete measurement `m = 1`. -/
theorem convert_is_linear_46000_witness :
    (0 : ℚ) ≤ 1 ∧ convert_tempo_to_ugm3 1 = 1 * 46000 :=
  ⟨by norm_num, convert_is_linear_46000 1 (by norm_num)⟩

/-- C2: thresholds are upper-bound-inclusive with first match winning: a
concentration exactly on a threshold gets the lower category, and the four
quoted boundary evaluations hold. -/
theorem aqi_boundary_exactness :
    calculate_aqi_no2 53 = ("Good", "#00E400", 0) ∧
    calculate_aqi_no2 (530000001 / 10000000) = ("Moderate", "#FFFF00", 1) ∧
    calculate_aqi_no2 1249 = ("Very Unhealthy", "#8F3F97", 4) ∧
    calculate_aqi_no2 (12490001 / 10000) = ("Hazardous", "#7E0023", 5) := by
  refine ⟨?_, ?_, ?_, ?_⟩ <;> (unfold calculate_aqi_no2; norm_num)

/-- C3: the six category intervals partition the non-negative
concentrations: every `c ≥ 0` lies in exactly one interval, and that
interval is the one whose index `calculate_aqi_no2` returns as the level. -/
theorem aqi_categories_partition (c : ℚ) (h : 0 ≤ c) :
    (∃! i : ℕ, inCategory i c) ∧
    ∀ i : ℕ, inCategory i c ↔ (calculate_aqi_no2 c).2.2 = i :=
  ⟨⟨(calculate_aqi_no2 c).2.2, inCategory_level c,
      fun _ hj => inCategory_eq_level hj⟩,
    fun _ => ⟨fun hi => (inCategory_eq_level hi).symm,
      fun hi => hi ▸ inCategory_level c⟩⟩

/-- Witness for C3 at the concrete concentration `c = 0`. -/
theorem aqi_categories_partition_witness :
    (0 : ℚ) ≤ 0 ∧
    ((∃! i : ℕ, inCategory i (0 : ℚ)) ∧
      ∀ i : ℕ, inCategory i (0 : ℚ) ↔ (calculate_aqi_no2 0).2.2 = i) :=
  ⟨le_refl 0, aqi_categories_partition 0 (le_refl 0)⟩

/-- C4: the conversion is strictly increasing, and the level component of
the classification of the converted value is monotone in the measurement. -/
theorem convert_strict_mono_and_classify_mono (m1 m2 : ℚ) (h : m1 < m2) :
    convert_tempo_to_ugm3 m1 < convert_tempo_to_ugm3 m2 ∧
    (calculate_aqi_no2 (convert_tempo_to_ugm3 m1)).2.2 ≤
      (calculate_aqi_no2 (convert_tempo_to_ugm3 m2)).2.2 := by
  have hc : convert_tempo_to_ugm3 m1 < convert_tempo_to_ugm3 m2 := by
    rw [convert_eq, convert_eq]
    have : (0 : ℚ) < 46000 := by norm_num
    exact mul_lt_mul_of_pos_right h this
  exact ⟨hc, aqi_level_mono hc.le⟩

/-- Witness for C4 at the concrete measurements `m1 = 0`, `m2 = 1`. -/
theorem convert_strict_mono_and_classify_mono_witness :
    (0 : ℚ) < 1 ∧
    (convert_tempo_to_ugm3 0 < convert_tempo_to_ugm3 1 ∧
      (calculate_aqi_no2 (convert_tempo_to_ugm3 0)).2.2 ≤
        (calculate_aqi_no2 (convert_tempo_to_ugm3 1)).2.2) :=
  ⟨by norm_num, convert_strict_mono_and_classify_mono 0 1 (by norm_num)⟩

/-- C5: for every input the returned `(category, color, level)` triple is
an entry of the fixed six-row table, with the level being exactly its
index, so category, color and level are mutually consistent. -/
theorem aqi_triple_consistent (c : ℚ) :
    ∃ i : Fin 6, calculate_aqi_no2 c = aqiTriple i ∧
      (calculate_aqi_no2 c).2.2 = (i : ℕ) :=
  calculate_aqi_no2_mem_table c

/-- C6 counterexample: `convert_tempo_to_ugm3 (-1)` does not fail with an
`InvalidMeasurement` error; it returns the value `-46000`. -/
theorem convert_neg_one_returns_value :
    convert_tempo_to_ugm3 (-1) = -46000 := by
  rw [convert_eq]
  norm_num

/-- C6 amended: the reference code performs no validation: `convert(-1)`
returns `-46000` instead of raising, and the classifier is total, always
returning one of the six table triples rather than raising. -/
theorem reference_code_never_raises :
    convert_tempo_to_ugm3 (-1) = -46000 ∧
    ∀ c : ℚ, ∃ i : Fin 6, calculate_aqi_no2 c = aqiTriple i := by
  refine ⟨by rw [convert_eq]; norm_num, fun c => ?_⟩
  obtain ⟨i, hi, _⟩ := calculate_aqi_no2_mem_table c
  exact ⟨i, hi⟩

/-- C7: the reference conversion performs no input validation: every
negative measurement propagates through the arithmetic unchanged and the
result is the negative number `m * 46000`. -/
theorem convert_no_validation_on_negative (m : ℚ) (h : m < 0) :
    convert_tempo_to_ugm3 m = m * 46000 ∧ convert_tempo_to_ugm3 m < 0 := by
  refine ⟨convert_eq m, ?_⟩
  rw [convert_eq]
  have : (0 : ℚ) < 46000 := by norm_num
  exact mul_neg_of_neg_of_pos h this

/-- Witness for C7 at the concrete measurement `m = -1`. -/
theorem convert_no_validation_on_negative_witness :
    (-1 : ℚ) < 0 ∧
    (convert_tempo_to_ugm3 (-1) = -1 * 46000 ∧ convert_tempo_to_ugm3 (-1) < 0) :=
  ⟨by norm_num, convert_no_validation_on_negative (-1) (by norm_num)⟩

/-- C8: the classifier is total and never raises; every concentration
`c ≤ 53`, including every negative one, is classified as
`("Good", "#00E400", 0)`. -/
theorem classify_good_at_or_below_53 (c : ℚ) (h : c ≤ 53) :
    calculate_aqi_no2 c = ("Good", "#00E400", 0) := by
  unfold calculate_aqi_no2
  rw [if_pos h]

/-- Witness for C8 at the concrete negative concentration `c = -5`. -/
theorem classify_good_at_or_below_53_witness :
    (-5 : ℚ) ≤ 53 ∧ calculate_aqi_no2 (-5) = ("Good", "#00E400", 0) :=
  ⟨by norm_num, classify_good_at_or_below_53 (-5) (by norm_num)⟩

/-- C9: both operations are deterministic pure functions of their
argument: equal inputs yield equal outputs, with no hidden state. -/
theorem operations_deterministic (m1 m2 c1 c2 : ℚ) (hm : m1 = m2)
    (hc : c1 = c2) :
    convert_tempo_to_ugm3 m1 = convert_tempo_to_ugm3 m2 ∧
    calculate_aqi_no2 c1 = calculate_aqi_no2 c2 := by
  subst hm
  subst hc
  exact ⟨rfl, rfl⟩

/-- Witness for C9 at the concrete inputs `m = 1`, `c = 2`. -/
theorem operations_deterministic_witness :
    (1 : ℚ) = 1 ∧ (2 : ℚ) = 2 ∧
    (convert_tempo_to_ugm3 1 = convert_tempo_to_ugm3 1 ∧
      calculate_aqi_no2 2 = calculate_aqi_no2 2) :=
  ⟨rfl, rfl, operations_deterministic 1 1 2 2 rfl rfl⟩

/-- C10: the literal satellite value `0.00007` from the hardcoded data
table converts to exactly `3.22` μg/m³, which classifies as Good, level 0. -/
theorem washington_dc_roundtrip :
    (0.00007 : ℚ) ∈ tempo_data_no2_molm2 ∧
    convert_tempo_to_ugm3 0.00007 = 3.22 ∧
    calculate_aqi_no2 (convert_tempo_to_ugm3 0.00007) = ("Good", "#00E400", 0) := by
  refine ⟨by simp [tempo_data_no2_molm2], by rw [convert_eq]; norm_num, ?_⟩
  rw [convert_eq]
  unfold calculate_aqi_no2
  rw [if_pos (by norm_num : (0.00007 : ℚ) * 46000 ≤ 53)]

end AirQuality
